import Mathlib

/-!
Verification development for the Icelandic Whisper speech-to-text FastAPI
service (src/whisper-service/main.py).

The service is shallowly embedded: pure request plumbing becomes Lean
functions, Python exceptions become `Except String`, the external libraries
(soundfile decoding, librosa resampling) and the opaque pretrained model and
processor become explicit parameters (an `Env` record and `Model`/`Processor`
records of functions), and the two module-level globals `processor`/`model`
become a `ServerState` record threaded through a request step function.
Audio samples are modelled as rationals: every value the PCM path produces
(`int16 / 32768.0`) is exactly representable in float32, so the rational
model is numerically faithful.
-/

/-- MODEL_NAME from main.py line 38. -/
def MODEL_NAME : String := "language-and-voice-lab/whisper-large-icelandic-62640-steps-967h"

/-- DEVICE from main.py line 39: "cuda" if torch.cuda.is_available() else "cpu".
CUDA availability is a boolean parameter of the embedding. -/
def DEVICE (cuda_available : Bool) : String :=
  if cuda_available then "cuda" else "cpu"

/-- The opaque Whisper processor: featurize is processor(audio,
sampling_rate=16000).input_features (composed with the device/dtype move),
batchDecode is processor.batch_decode(ids, skip_special_tokens=True)[0]. -/
structure WhisperProcessor where
  featurize : List ℚ → List ℚ
  batchDecode : List Nat → String

/-- The opaque Whisper model: generate is model.generate(input_features)
run under torch.no_grad(). -/
structure WhisperModel where
  generate : List ℚ → List Nat

/-- The two module-level globals of main.py lines 43-44, both initially None. -/
structure ServerState where
  processor : Option WhisperProcessor
  model : Option WhisperModel

/-- The initial module state: processor = None, model = None (main.py 43-44). -/
def initialState : ServerState := { processor := none, model := none }

/-- load_model (main.py 47-68): writes both globals from the pretrained
checkpoint. The checkpoint contents are a parameter. -/
def load_model (loadedProcessor : WhisperProcessor) (loadedModel : WhisperModel)
    (_st : ServerState) : ServerState :=
  { processor := some loadedProcessor, model := some loadedModel }

/-- A decoded soundfile buffer: numpy arrays of one dimension (mono) or two
(frames by channels), distinguished in main.py by len(audio_data.shape). -/
inductive AudioData where
  | mono (samples : List ℚ)
  | multi (frames : List (List ℚ))

/-- External libraries used by the handlers: sf.read (soundfile decoding of
the uploaded bytes, fallible) and librosa.resample (audio, orig_sr,
target_sr). -/
structure Env where
  sfRead : List Nat → Except String (AudioData × Int)
  resample : List ℚ → Int → Int → List ℚ

/-- Lines 109-110: convert to mono if stereo; audio_data.mean(axis=1) is the
per-frame arithmetic mean across channels, a 1-D array is left unchanged. -/
def toMono : AudioData → List ℚ
  | .mono samples => samples
  | .multi frames => frames.map (fun fr => fr.sum / (fr.length : ℚ))

/-- Pydantic request model (main.py 71-74); sample_rate defaults to 16000. -/
structure TranscribeBase64Request where
  audio_data : String
  sample_rate : Int := 16000

/-- JSON body parsing into TranscribeBase64Request: an absent sample_rate
field takes the pydantic default 16000. -/
def TranscribeBase64Request.parse (audioField : String) (rateField : Option Int) :
    TranscribeBase64Request :=
  { audio_data := audioField, sample_rate := rateField.getD 16000 }

/-- Pydantic response model (main.py 77-80); language defaults to "is". -/
structure TranscriptionResponse where
  text : String
  language : String := "is"

/-- An HTTP outcome: a 2xx body, or an HTTPException with status and detail. -/
inductive HttpResult (α : Type) where
  | success (body : α)
  | failure (status : Nat) (detail : String)

/-- HealthResponse: the dict returned by health_check (main.py 86-91). -/
structure HealthResponse where
  status : String
  model : String
  device : String
  cuda_available : Bool

/-- health_check (main.py 83-91). It reads only MODEL_NAME, DEVICE and CUDA
availability, never the model/processor globals. -/
def health_check (cuda_available : Bool) (_st : ServerState) : HealthResponse :=
  { status := "healthy"
    model := MODEL_NAME
    device := DEVICE cuda_available
    cuda_available := cuda_available }

/-- Value of a standard base64 alphabet character (A-Z, a-z, 0-9, +, /). -/
def b64CharVal (c : Char) : Option Nat :=
  if 'A' ≤ c ∧ c ≤ 'Z' then some (c.toNat - 65)
  else if 'a' ≤ c ∧ c ≤ 'z' then some (c.toNat - 97 + 26)
  else if '0' ≤ c ∧ c ≤ '9' then some (c.toNat - 48 + 52)
  else if c = '+' then some 62
  else if c = '/' then some 63
  else none

/-- The character loop of binascii.a2b_base64 in non-strict mode, which is
what base64.b64decode runs with default validate=False. State: quad_pos is
the position (0-3) inside the current group of four data characters,
leftchar the bits carried from the previous character, pads the count of the
current pad run, acc the bytes emitted so far in reverse. A '=' seen at
quad_pos ≥ 2 that completes a pad sequence (quad_pos + pads ≥ 4) ends
decoding successfully, ignoring the rest of the input; a '=' elsewhere is
skipped (counted only from quad_pos ≥ 2), characters outside the alphabet
are skipped, and a data character resets the pad count and emits a byte at
quad_pos 1, 2 and 3. Input that ends mid-quad is an error: at quad_pos 1
the impossible-length error, at quad_pos 2 or 3 incorrect padding. -/
def a2bBase64Loop : List Char → Nat → Nat → Nat → List Nat → Except String (List Nat)
  | [], quad_pos, _leftchar, _pads, acc =>
      if quad_pos = 0 then .ok acc.reverse
      else if quad_pos = 1 then
        .error ("Invalid base64-encoded string: number of data characters (" ++
          toString (acc.length / 3 * 4 + 1) ++
          ") cannot be 1 more than a multiple of 4")
      else .error "Incorrect padding"
  | c :: rest, quad_pos, leftchar, pads, acc =>
      if c = '=' then
        if 2 ≤ quad_pos then
          if 4 ≤ quad_pos + (pads + 1) then .ok acc.reverse
          else a2bBase64Loop rest quad_pos leftchar (pads + 1) acc
        else a2bBase64Loop rest quad_pos leftchar pads acc
      else
        match b64CharVal c with
        | none => a2bBase64Loop rest quad_pos leftchar pads acc
        | some v =>
            match quad_pos with
            | 0 => a2bBase64Loop rest 1 v 0 acc
            | 1 => a2bBase64Loop rest 2 (v % 16) 0 ((leftchar * 4 + v / 16) % 256 :: acc)
            | 2 => a2bBase64Loop rest 3 (v % 4) 0 ((leftchar * 16 + v / 4) % 256 :: acc)
            | _ => a2bBase64Loop rest 0 0 0 ((leftchar * 64 + v) % 256 :: acc)

/-- base64.b64decode with default validate=False: binascii.a2b_base64 in
non-strict mode over the characters of the field, starting outside any
quad with no carried bits, no pad run and no output. -/
def b64decode (s : String) : Except String (List Nat) :=
  a2bBase64Loop s.data 0 0 0 []

/-- np.frombuffer(audio_bytes, dtype=np.int16): reinterpret the byte string
as little-endian signed 16-bit integers; an odd byte count raises
ValueError (buffer size must be a multiple of element size). -/
def bytesToInt16 : List Nat → Except String (List Int)
  | [] => .ok []
  | [_] => .error "buffer size must be a multiple of element size"
  | b0 :: b1 :: rest =>
      match bytesToInt16 rest with
      | .error e => .error e
      | .ok tail =>
          let v := b0 % 256 + 256 * (b1 % 256)
          .ok ((if v < 32768 then (v : Int) else (v : Int) - 65536) :: tail)

example : b64decode "AAD/fw==" = .ok [0, 0, 255, 127] := by rfl
example : b64decode "abc" = .error "Incorrect padding" := by rfl
example : b64decode "AA==" = .ok [0] := by rfl
example : b64decode "AA=A" = .error "Incorrect padding" := by rfl
example : b64decode "AAA=A" = .ok [0, 0] := by rfl
example : b64decode "AAA=AAAA" = .ok [0, 0] := by rfl
example : b64decode "A" = .error ("Invalid base64-encoded string: number of " ++
  "data characters (1) cannot be 1 more than a multiple of 4") := by rfl
example : bytesToInt16 [0, 0, 255, 127, 0, 128] = .ok [0, 32767, -32768] := by rfl

/-- Lines 152-155 of transcribe_pcm: base64-decode the audio_data field,
reinterpret the bytes as int16 and convert each sample to float in [-1, 1)
by dividing by 32768.0. -/
def pcmDecodedFloats (audioField : String) : Except String (List ℚ) :=
  match b64decode audioField with
  | .error e => .error e
  | .ok audio_bytes =>
      match bytesToInt16 audio_bytes with
      | .error e => .error e
      | .ok audio_int16 => .ok (audio_int16.map (fun s : Int => (s : ℚ) / 32768))

/-- Lines 117-129 / 166-178: featurize at sampling_rate 16000, generate the
token ids under no_grad, batch-decode them to a transcription, and build the
response from its stripped text (language left at its default). -/
def runInference (processor : WhisperProcessor) (model : WhisperModel)
    (audioSamples : List ℚ) : TranscriptionResponse :=
  let input_features := processor.featurize audioSamples
  let predicted_ids := model.generate input_features
  let transcription := processor.batchDecode predicted_ids
  { text := transcription.trim }

/-- The try-block of transcribe_audio (main.py 103-131): decode the upload
with sf.read, mix to mono if stereo, resample if the decoded rate is not
16000, then run inference. -/
def transcribeAudioBody (env : Env) (processor : WhisperProcessor)
    (model : WhisperModel) (fileBytes : List Nat) :
    Except String TranscriptionResponse :=
  match env.sfRead fileBytes with
  | .error e => .error e
  | .ok (audio_data, sample_rate) =>
      let monoSamples := toMono audio_data
      let finalSamples :=
        if sample_rate ≠ 16000 then env.resample monoSamples sample_rate 16000
        else monoSamples
      .ok (runInference processor model finalSamples)

/-- transcribe_audio (main.py 94-135): 503 when either global is still None,
otherwise the try-block with every exception surfaced as a 500 whose detail
is the exception text. -/
def transcribe_audio (env : Env) (st : ServerState) (fileBytes : List Nat) :
    HttpResult TranscriptionResponse :=
  match st.model, st.processor with
  | some model, some processor =>
      match transcribeAudioBody env processor model fileBytes with
      | .ok resp => .success resp
      | .error e => .failure 500 e
  | _, _ => .failure 503 "Model not loaded yet"

/-- The try-block of transcribe_pcm (main.py 147-180): base64/PCM decoding,
resampling when request.sample_rate is not 16000, then inference. -/
def transcribePcmBody (env : Env) (processor : WhisperProcessor)
    (model : WhisperModel) (request : TranscribeBase64Request) :
    Except String TranscriptionResponse :=
  match pcmDecodedFloats request.audio_data with
  | .error e => .error e
  | .ok audio_float =>
      let finalSamples :=
        if request.sample_rate ≠ 16000 then
          env.resample audio_float request.sample_rate 16000
        else audio_float
      .ok (runInference processor model finalSamples)

/-- transcribe_pcm (main.py 138-184): 503 when either global is still None,
otherwise the try-block with every exception surfaced as a 500 whose detail
is the exception text. -/
def transcribe_pcm (env : Env) (st : ServerState) (request : TranscribeBase64Request) :
    HttpResult TranscriptionResponse :=
  match st.model, st.processor with
  | some model, some processor =>
      match transcribePcmBody env processor model request with
      | .ok resp => .success resp
      | .error e => .failure 500 e
  | _, _ => .failure 503 "Model not loaded yet"

/-- A request to one of the three routes of the service. -/
inductive Request where
  | health
  | transcribe (fileBytes : List Nat)
  | transcribePcm (request : TranscribeBase64Request)

/-- A response from one of the three routes. -/
inductive Response where
  | health (body : HealthResponse)
  | transcription (result : HttpResult TranscriptionResponse)

/-- Dispatch one request. No handler contains a global statement or assigns
to the module globals, so the server state each handler leaves behind is the
state it received. -/
def handleRequest (cuda_available : Bool) (env : Env) (st : ServerState) :
    Request → ServerState × Response
  | .health => (st, .health (health_check cuda_available st))
  | .transcribe fileBytes => (st, .transcription (transcribe_audio env st fileBytes))
  | .transcribePcm request => (st, .transcription (transcribe_pcm env st request))

/-- The server state after a sequence of requests. -/
def runRequests (cuda_available : Bool) (env : Env) (st : ServerState)
    (reqs : List Request) : ServerState :=
  reqs.foldl (fun s r => (handleRequest cuda_available env s r).1) st

/-- A concrete processor used to instantiate theorems on closed inputs. -/
def demoProcessor : WhisperProcessor :=
  { featurize := fun x => x, batchDecode := fun _ => " halló heimur " }

/-- A concrete model used to instantiate theorems on closed inputs. -/
def demoModel : WhisperModel := { generate := fun _ => [7] }

/-- A concrete environment whose decoder reports a mono buffer at 8000 Hz. -/
def demoEnv8k : Env :=
  { sfRead := fun _ => .ok (.mono [1 / 2], 8000), resample := fun f _ _ => f }

/-- A concrete environment whose decoder reports a stereo buffer at 16000 Hz. -/
def demoEnv16k : Env :=
  { sfRead := fun _ => .ok (.multi [[1, 0]], 16000), resample := fun f _ _ => f }

/-- A concrete environment whose decoder always fails, as soundfile does on
bytes that are not decodable audio. -/
def demoEnvFail : Env :=
  { sfRead := fun _ => .error "Format not recognised.", resample := fun f _ _ => f }

/-- The module state once load_model has run with the demo checkpoint. -/
def loadedState : ServerState :=
  load_model demoProcessor demoModel initialState

/-- Every int16 value np.frombuffer reconstructs lies in [-32768, 32767]. -/
theorem bytesToInt16_range (bytes : List Nat) :
    ∀ l, bytesToInt16 bytes = .ok l → ∀ s ∈ l, -32768 ≤ s ∧ s ≤ 32767 := by
  induction bytes using bytesToInt16.induct with
  | case1 =>
      intro l hl s hs
      simp only [bytesToInt16] at hl
      cases hl
      simp at hs
  | case2 b =>
      intro l hl
      simp [bytesToInt16] at hl
  | case3 b0 b1 rest e heq ih =>
      intro l hl
      rw [bytesToInt16, heq] at hl
      simp at hl
  | case4 b0 b1 rest tail heq ih =>
      intro l hl s hs
      rw [bytesToInt16, heq] at hl
      simp only [Except.ok.injEq] at hl
      subst hl
      rcases List.mem_cons.mp hs with h | h
      · subst h
        have h0 : b0 % 256 < 256 := Nat.mod_lt _ (by norm_num)
        have h1 : b1 % 256 < 256 := Nat.mod_lt _ (by norm_num)
        constructor <;> (split <;> omega)
      · exact ih tail heq s h

/-- The response built from any inference run carries language "is". -/
theorem runInference_language (processor : WhisperProcessor) (model : WhisperModel)
    (audioSamples : List ℚ) : (runInference processor model audioSamples).language = "is" :=
  rfl

/-- Any 2xx body the /transcribe try-block produces has language "is". -/
theorem transcribeAudioBody_ok_language (env : Env) (processor : WhisperProcessor)
    (model : WhisperModel) (fileBytes : List Nat) (resp : TranscriptionResponse)
    (h : transcribeAudioBody env processor model fileBytes = .ok resp) :
    resp.language = "is" := by
  rw [transcribeAudioBody] at h
  cases hr : env.sfRead fileBytes with
  | error e => rw [hr] at h; simp at h
  | ok p =>
      obtain ⟨audio, r⟩ := p
      rw [hr] at h
      simp only [Except.ok.injEq] at h
      subst h
      rfl

/-- Any 2xx body the /transcribe/pcm try-block produces has language "is". -/
theorem transcribePcmBody_ok_language (env : Env) (processor : WhisperProcessor)
    (model : WhisperModel) (request : TranscribeBase64Request) (resp : TranscriptionResponse)
    (h : transcribePcmBody env processor model request = .ok resp) :
    resp.language = "is" := by
  rw [transcribePcmBody] at h
  cases hr : pcmDecodedFloats request.audio_data with
  | error e => rw [hr] at h; simp at h
  | ok floats =>
      rw [hr] at h
      simp only [Except.ok.injEq] at h
      subst h
      rfl

/-- C1: for every transcription request — a /transcribe upload whose decoded
sample rate is r, or a /transcribe/pcm request whose sample_rate field is r —
if r is not 16000 the audio is resampled to 16000 Hz before being handed to
the processor for inference, and if r equals 16000 the samples are handed to
the processor unchanged. -/
theorem C1_resampled_iff_rate_differs
    (env : Env) (st : ServerState)
    (processor : WhisperProcessor) (model : WhisperModel)
    (hp : st.processor = some processor) (hm : st.model = some model)
    (fileBytes : List Nat) (audio : AudioData) (r : Int)
    (hread : env.sfRead fileBytes = .ok (audio, r))
    (request : TranscribeBase64Request) (floats : List ℚ)
    (hdec : pcmDecodedFloats request.audio_data = .ok floats) :
    ((r ≠ 16000 → transcribe_audio env st fileBytes =
        .success (runInference processor model (env.resample (toMono audio) r 16000))) ∧
     (r = 16000 → transcribe_audio env st fileBytes =
        .success (runInference processor model (toMono audio)))) ∧
    ((request.sample_rate ≠ 16000 → transcribe_pcm env st request =
        .success (runInference processor model
          (env.resample floats request.sample_rate 16000))) ∧
     (request.sample_rate = 16000 → transcribe_pcm env st request =
        .success (runInference processor model floats))) := by
  refine ⟨⟨fun hr => ?_, fun hr => ?_⟩, fun hr => ?_, fun hr => ?_⟩ <;>
    simp [transcribe_audio, transcribe_pcm, transcribeAudioBody, transcribePcmBody,
      hm, hp, hread, hdec, hr]

/-- C1 witness: an 8000 Hz upload and an 8000 Hz PCM request against the
loaded demo state. -/
theorem C1_resampled_iff_rate_differs_witness :
    (((8000 : Int) ≠ 16000 → transcribe_audio demoEnv8k loadedState [] =
        .success (runInference demoProcessor demoModel
          (demoEnv8k.resample (toMono (.mono [1 / 2])) 8000 16000))) ∧
     ((8000 : Int) = 16000 → transcribe_audio demoEnv8k loadedState [] =
        .success (runInference demoProcessor demoModel (toMono (.mono [1 / 2]))))) ∧
    (((8000 : Int) ≠ 16000 →
        transcribe_pcm demoEnv8k loadedState { audio_data := "", sample_rate := 8000 } =
        .success (runInference demoProcessor demoModel
          (demoEnv8k.resample [] 8000 16000))) ∧
     ((8000 : Int) = 16000 →
        transcribe_pcm demoEnv8k loadedState { audio_data := "", sample_rate := 8000 } =
        .success (runInference demoProcessor demoModel []))) :=
  C1_resampled_iff_rate_differs demoEnv8k loadedState demoProcessor demoModel rfl rfl
    [] (.mono [1 / 2]) 8000 rfl { audio_data := "", sample_rate := 8000 } [] rfl

/-- C2: the /transcribe/pcm body is decoded as 16-bit signed PCM and each
sample is divided by 32768.0, so every converted sample lies in
[-1, 32767/32768] and hence in [-1, 1]. -/
theorem C2_pcm_floats_bounded (audioField : String) (floats : List ℚ)
    (h : pcmDecodedFloats audioField = .ok floats)
    (x : ℚ) (hx : x ∈ floats) :
    -1 ≤ x ∧ x ≤ 32767 / 32768 := by
  cases hb : b64decode audioField with
  | error e => simp [pcmDecodedFloats, hb] at h
  | ok audioBytes =>
      cases hi : bytesToInt16 audioBytes with
      | error e => simp [pcmDecodedFloats, hb, hi] at h
      | ok ints =>
          simp only [pcmDecodedFloats, hb, hi, Except.ok.injEq] at h
          subst h
          rcases List.mem_map.mp hx with ⟨s, hs, rfl⟩
          obtain ⟨hlo, hhi⟩ := bytesToInt16_range audioBytes ints hi s hs
          have hq1 : (-32768 : ℚ) ≤ (s : ℚ) := by exact_mod_cast hlo
          have hq2 : (s : ℚ) ≤ 32767 := by exact_mod_cast hhi
          exact ⟨by linarith, by linarith⟩

/-- C2 witness: the request body "AAD/fw==" decodes to the samples 0 and
32767, whose converted values are 0 and 32767/32768. -/
theorem C2_pcm_floats_bounded_witness :
    -1 ≤ (32767 / 32768 : ℚ) ∧ (32767 / 32768 : ℚ) ≤ 32767 / 32768 :=
  C2_pcm_floats_bounded "AAD/fw==" [0, 32767 / 32768]
    (by
      have h1 : b64decode "AAD/fw==" = .ok [0, 0, 255, 127] := rfl
      have h2 : bytesToInt16 [0, 0, 255, 127] = .ok [0, 32767] := rfl
      simp [pcmDecodedFloats, h1, h2])
    (32767 / 32768) (by norm_num)

/-- C3: while either global is still None, every request to /transcribe or
/transcribe/pcm is answered 503 with no audio processing, whatever the
payload. -/
theorem C3_unloaded_gives_503 (env : Env) (st : ServerState)
    (h : st.model = none ∨ st.processor = none)
    (fileBytes : List Nat) (request : TranscribeBase64Request) :
    transcribe_audio env st fileBytes = .failure 503 "Model not loaded yet" ∧
    transcribe_pcm env st request = .failure 503 "Model not loaded yet" := by
  cases hm : st.model <;> cases hp : st.processor <;>
    simp_all [transcribe_audio, transcribe_pcm]

/-- C3 witness: the initial (unloaded) state answers 503 on both routes. -/
theorem C3_unloaded_gives_503_witness :
    transcribe_audio demoEnv16k initialState [] = .failure 503 "Model not loaded yet" ∧
    transcribe_pcm demoEnv16k initialState { audio_data := "" } =
      .failure 503 "Model not loaded yet" :=
  C3_unloaded_gives_503 demoEnv16k initialState (Or.inl rfl) [] { audio_data := "" }

/-- C4: every exception the try-block of either handler raises is caught at
the handler boundary and answered as a 500 whose detail equals the string
representation of that exception, so no exception escapes the handler. -/
theorem C4_errors_caught_as_500 (env : Env) (st : ServerState)
    (processor : WhisperProcessor) (model : WhisperModel)
    (hp : st.processor = some processor) (hm : st.model = some model)
    (fileBytes : List Nat) (e1 : String)
    (haudio : transcribeAudioBody env processor model fileBytes = .error e1)
    (request : TranscribeBase64Request) (e2 : String)
    (hpcm : transcribePcmBody env processor model request = .error e2) :
    transcribe_audio env st fileBytes = .failure 500 e1 ∧
    transcribe_pcm env st request = .failure 500 e2 := by
  constructor <;> simp [transcribe_audio, transcribe_pcm, hm, hp, haudio, hpcm]

/-- C4 witness: an undecodable upload and a malformed base64 body against
the loaded demo state. -/
theorem C4_errors_caught_as_500_witness :
    transcribe_audio demoEnvFail loadedState [] = .failure 500 "Format not recognised." ∧
    transcribe_pcm demoEnvFail loadedState { audio_data := "abc" } =
      .failure 500 "Incorrect padding" :=
  C4_errors_caught_as_500 demoEnvFail loadedState demoProcessor demoModel rfl rfl
    [] "Format not recognised." rfl { audio_data := "abc" } "Incorrect padding" rfl

/-- C5: a /transcribe/pcm request whose audio_data is not well-formed base64
is answered 500, and a /transcribe upload whose bytes soundfile cannot decode
is answered 500. -/
theorem C5_malformed_input_gives_500 (env : Env) (st : ServerState)
    (processor : WhisperProcessor) (model : WhisperModel)
    (hp : st.processor = some processor) (hm : st.model = some model)
    (request : TranscribeBase64Request) (e1 : String)
    (hbad : b64decode request.audio_data = .error e1)
    (fileBytes : List Nat) (e2 : String)
    (hread : env.sfRead fileBytes = .error e2) :
    transcribe_pcm env st request = .failure 500 e1 ∧
    transcribe_audio env st fileBytes = .failure 500 e2 := by
  constructor <;>
    simp [transcribe_pcm, transcribe_audio, transcribePcmBody, transcribeAudioBody,
      pcmDecodedFloats, hm, hp, hbad, hread]

/-- C5 witness: "abc" is not well-formed base64 and the failing decoder
environment rejects the upload; both routes answer 500. -/
theorem C5_malformed_input_gives_500_witness :
    transcribe_pcm demoEnvFail loadedState { audio_data := "abc" } =
      .failure 500 "Incorrect padding" ∧
    transcribe_audio demoEnvFail loadedState [1, 2, 3] =
      .failure 500 "Format not recognised." :=
  C5_malformed_input_gives_500 demoEnvFail loadedState demoProcessor demoModel rfl rfl
    { audio_data := "abc" } "Incorrect padding" rfl [1, 2, 3] "Format not recognised." rfl

/-- C6: in /transcribe a decoded buffer with more than one channel is mixed
to mono by the per-frame arithmetic mean across channels before inference,
and a one-dimensional buffer passes through the mixing step unchanged. -/
theorem C6_stereo_mean_mono_unchanged (env : Env) (st : ServerState)
    (processor : WhisperProcessor) (model : WhisperModel)
    (hp : st.processor = some processor) (hm : st.model = some model)
    (fileBytes : List Nat) (audio : AudioData) (r : Int)
    (hread : env.sfRead fileBytes = .ok (audio, r)) :
    (∀ frames, audio = .multi frames → transcribe_audio env st fileBytes =
      .success (runInference processor model
        (let mixed := frames.map (fun fr => fr.sum / (fr.length : ℚ))
         if r ≠ 16000 then env.resample mixed r 16000 else mixed))) ∧
    (∀ samples, audio = .mono samples → transcribe_audio env st fileBytes =
      .success (runInference processor model
        (if r ≠ 16000 then env.resample samples r 16000 else samples))) := by
  constructor <;> rintro x rfl <;>
    simp [transcribe_audio, transcribeAudioBody, toMono, hm, hp, hread]

/-- C6 witness: a stereo buffer [[1, 0]] at 16000 Hz in the demo
environment. -/
theorem C6_stereo_mean_mono_unchanged_witness :
    (∀ frames, AudioData.multi [[1, 0]] = .multi frames →
      transcribe_audio demoEnv16k loadedState [] =
        .success (runInference demoProcessor demoModel
          (let mixed := frames.map (fun fr => fr.sum / (fr.length : ℚ))
           if (16000 : Int) ≠ 16000 then demoEnv16k.resample mixed 16000 16000 else mixed))) ∧
    (∀ samples, AudioData.multi [[1, 0]] = .mono samples →
      transcribe_audio demoEnv16k loadedState [] =
        .success (runInference demoProcessor demoModel
          (if (16000 : Int) ≠ 16000 then demoEnv16k.resample samples 16000 16000
           else samples))) :=
  C6_stereo_mean_mono_unchanged demoEnv16k loadedState demoProcessor demoModel rfl rfl
    [] (.multi [[1, 0]]) 16000 rfl

/-- C7: every 2xx response from /transcribe or /transcribe/pcm is exactly a
text field together with a language field, and the language is always
"is". -/
theorem C7_success_language_is (env : Env) (st : ServerState)
    (fileBytes : List Nat) (request : TranscribeBase64Request) :
    (∀ resp, transcribe_audio env st fileBytes = .success resp →
      resp = { text := resp.text, language := "is" }) ∧
    (∀ resp, transcribe_pcm env st request = .success resp →
      resp = { text := resp.text, language := "is" }) := by
  constructor <;> intro resp hresp
  · cases hm : st.model with
    | none => simp [transcribe_audio, hm] at hresp
    | some model =>
        cases hp : st.processor with
        | none => simp [transcribe_audio, hm, hp] at hresp
        | some processor =>
            cases hbody : transcribeAudioBody env processor model fileBytes with
            | error e => simp [transcribe_audio, hm, hp, hbody] at hresp
            | ok r =>
                simp only [transcribe_audio, hm, hp, hbody,
                  HttpResult.success.injEq] at hresp
                have hl := transcribeAudioBody_ok_language env processor model
                  fileBytes r hbody
                cases hresp
                obtain ⟨t, lang⟩ := resp
                simp only [TranscriptionResponse.mk.injEq]
                exact ⟨trivial, hl⟩
  · cases hm : st.model with
    | none => simp [transcribe_pcm, hm] at hresp
    | some model =>
        cases hp : st.processor with
        | none => simp [transcribe_pcm, hm, hp] at hresp
        | some processor =>
            cases hbody : transcribePcmBody env processor model request with
            | error e => simp [transcribe_pcm, hm, hp, hbody] at hresp
            | ok r =>
                simp only [transcribe_pcm, hm, hp, hbody,
                  HttpResult.success.injEq] at hresp
                have hl := transcribePcmBody_ok_language env processor model
                  request r hbody
                cases hresp
                obtain ⟨t, lang⟩ := resp
                simp only [TranscriptionResponse.mk.injEq]
                exact ⟨trivial, hl⟩

/-- C8: GET /health always answers with status "healthy", the configured
model name, the device chosen at module load ("cuda" when CUDA is available,
otherwise "cpu") and the CUDA flag; it never fails and its answer does not
depend on whether the model has been loaded. -/
theorem C8_health_fields (cuda_available : Bool) (st st2 : ServerState) :
    health_check cuda_available st =
      { status := "healthy", model := MODEL_NAME,
        device := if cuda_available then "cuda" else "cpu",
        cuda_available := cuda_available } ∧
    health_check cuda_available st = health_check cuda_available st2 :=
  ⟨rfl, rfl⟩

/-- C9: only load_model writes the model/processor globals; no request
handler changes the server state, so any sequence of requests after startup
leaves the state exactly as startup produced it. -/
theorem C9_handlers_read_only (cuda_available : Bool) (env : Env)
    (st : ServerState) (req : Request) (reqs : List Request)
    (loadedProcessor : WhisperProcessor) (loadedModel : WhisperModel) :
    (handleRequest cuda_available env st req).1 = st ∧
    runRequests cuda_available env st reqs = st ∧
    load_model loadedProcessor loadedModel st =
      { processor := some loadedProcessor, model := some loadedModel } := by
  refine ⟨?_, ?_, rfl⟩
  · cases req <;> rfl
  · induction reqs generalizing st with
    | nil => rfl
    | cons r rs ih =>
        have hstep : (handleRequest cuda_available env st r).1 = st := by
          cases r <;> rfl
        calc runRequests cuda_available env st (r :: rs)
            = runRequests cuda_available env (handleRequest cuda_available env st r).1 rs :=
              rfl
          _ = runRequests cuda_available env st rs := by rw [hstep]
          _ = st := ih st

/-- C10: the sample_rate field of /transcribe/pcm is optional; when it is
omitted it defaults to 16000 and the decoded samples reach the processor
without any resampling. -/
theorem C10_default_rate_skips_resample (audioField : String) (env : Env)
    (st : ServerState) (processor : WhisperProcessor) (model : WhisperModel)
    (hp : st.processor = some processor) (hm : st.model = some model)
    (floats : List ℚ) (hdec : pcmDecodedFloats audioField = .ok floats) :
    (TranscribeBase64Request.parse audioField none).sample_rate = 16000 ∧
    transcribe_pcm env st (TranscribeBase64Request.parse audioField none) =
      .success (runInference processor model floats) := by
  refine ⟨rfl, ?_⟩
  simp [transcribe_pcm, transcribePcmBody, TranscribeBase64Request.parse, hm, hp, hdec]

/-- C10 witness: a body with no sample_rate field against the loaded demo
state. -/
theorem C10_default_rate_skips_resample_witness :
    (TranscribeBase64Request.parse "" none).sample_rate = 16000 ∧
    transcribe_pcm demoEnv16k loadedState (TranscribeBase64Request.parse "" none) =
      .success (runInference demoProcessor demoModel []) :=
  C10_default_rate_skips_resample "" demoEnv16k loadedState demoProcessor demoModel
    rfl rfl [] rfl
